import Mathlib

/-!
Verification of the user-service core of `src/backend/main.go`
(go-and-angular-website backend): the data model, the five operations
(`getUsers`, `getUserByID`, `createUser`, `updateUser`, `deleteUser`),
and the in-memory read cache, shallowly embedded in Lean.

Conventions of the embedding:
- machine time (`time.Time`) is a `Nat` (seconds);
- the relational store is a list of rows in implicit store order plus the
  next serial identifier; the store assigning `id`, `created_at` and
  `updated_at` on insert, and refreshing `updated_at` on update, is the
  store-side behaviour (the schema is not part of the backend source);
- the go-cache instance is an association list of (key, value, expiry);
- bcrypt is an opaque collaborator, passed as a `hash : String → String`
  parameter;
- `database/sql` errors are the `DBError` inductive: `noRows` is
  `sql.ErrNoRows`, `duplicate` is `errors.New("username_or_email_exists")`,
  `notFound` is `errors.New("user not found")` from `deleteUser`.
-/

namespace GoSite

/-- Mirror of `type User struct` in `src/backend/main.go` (lines 47-57). -/
structure User where
  id : Nat
  username : String
  email : String
  password : String
  profilePictureURL : String
  bio : String
  createdAt : Nat
  updatedAt : Nat
  deletedAt : Option Nat
deriving Repr, DecidableEq

/-- The `users` table: rows in implicit store order, plus the next value of
the store-generated serial primary key. -/
structure DB where
  rows : List User
  nextId : Nat
deriving Repr, DecidableEq

/-- One entry of the go-cache instance `userCache`: key (the user id, the Go
code keys by `strconv.Itoa(id)`), cached value, absolute expiry instant. -/
structure CacheEntry where
  key : Nat
  value : User
  expiresAt : Nat
deriving Repr, DecidableEq

abbrev Cache := List CacheEntry

/-- `cache.New(5*time.Minute, 10*time.Minute)`: the default TTL, in seconds. -/
def defaultTTL : Nat := 300

/-- `userCache.Get`: a key is found while its entry has not expired. -/
def cacheGet (c : Cache) (k : Nat) (now : Nat) : Option User :=
  match c.find? (fun e => e.key == k) with
  | some e => if now < e.expiresAt then some e.value else none
  | none => none

/-- `userCache.Set` with `cache.DefaultExpiration`: replaces any entry under
the key, stamping expiry `now + defaultTTL`. -/
def cacheSet (c : Cache) (k : Nat) (u : User) (now : Nat) : Cache :=
  { key := k, value := u, expiresAt := now + defaultTTL } :: c.filter (fun e => e.key != k)

/-- Errors surfaced by the service functions of `main.go`. -/
inductive DBError where
  | noRows
  | duplicate
  | notFound
deriving Repr, DecidableEq

/-- Effect of `rows.Scan` when the SELECT lists only the seven columns
`id, username, email, profile_picture_url, bio, created_at, updated_at`:
the `Password` and `DeletedAt` fields of the scanned struct keep their Go
zero values (`""` and `nil`). -/
def selectedColumns (u : User) : User :=
  { u with password := "", deletedAt := none }

/-- The rows the read queries see: `WHERE deleted_at IS NULL`. -/
def activeRows (db : DB) : List User :=
  db.rows.filter (fun r => r.deletedAt == none)

/-- Go `uint64(x)` conversion of a (signed) integer. -/
def goUint64 (x : Int) : Nat := (x % (2 ^ 64)).toNat

/-- Wrap-around of Go `int` (64-bit two's-complement) arithmetic. -/
def int64wrap (x : Int) : Int := (x + 2 ^ 63) % 2 ^ 64 - 2 ^ 63

/-- `getUsers` (main.go lines 118-146): offset `(page-1)*pageSize`, active
rows only, `LIMIT uint64(pageSize) OFFSET uint64(offset)`, scanning seven
columns. -/
def getUsers (db : DB) (page pageSize : Int) : List User :=
  let offset := int64wrap (int64wrap (page - 1) * pageSize)
  ((((activeRows db).drop (goUint64 offset)).take (goUint64 pageSize)).map selectedColumns)

/-- The `page` fallback of the `GET /users` handler (main.go lines 348-351):
`strconv.Atoi` failure (modelled by `none`) or a value below 1 gives 1. -/
def pageOf (pageParam : Option Int) : Int :=
  match pageParam with
  | some p => if p < 1 then 1 else p
  | none => 1

/-- The `pageSize` fallback of the `GET /users` handler (main.go lines
352-355): parse failure or a value below 1 gives 10. -/
def pageSizeOf (pageSizeParam : Option Int) : Int :=
  match pageSizeParam with
  | some s => if s < 1 then 10 else s
  | none => 10

/-- The `GET /users` handler (main.go lines 347-362). -/
def getUsersHandler (db : DB) (pageParam pageSizeParam : Option Int) : List User :=
  getUsers db (pageOf pageParam) (pageSizeOf pageSizeParam)

/-- `getUserByID` (main.go lines 148-168): cache first; on miss, query one
row `WHERE id = ? AND deleted_at IS NULL` (seven columns), and on success
populate the cache under the id key with the default TTL. -/
def getUserByID (db : DB) (c : Cache) (now : Nat) (id : Nat) :
    Except DBError User × Cache :=
  match cacheGet c id now with
  | some u => (Except.ok u, c)
  | none =>
    match (db.rows.filter (fun r => r.id == id && r.deletedAt == none)).head? with
    | none => (Except.error DBError.noRows, c)
    | some r =>
      let u := selectedColumns r
      (Except.ok u, cacheSet c id u now)

/-- `createUser` (main.go lines 170-210): pre-check
`SELECT id FROM users WHERE username = $1 OR email = $2` (no deleted_at
filter; `Scan` leaves `existingUser.ID` at 0 on `sql.ErrNoRows`), then
bcrypt-hash the password, INSERT, and scan back the store-assigned
`id, created_at, updated_at` into the same struct. -/
def createUser (hash : String → String) (db : DB) (now : Nat) (user : User) :
    Except DBError User × DB :=
  let existingID : Nat :=
    match (db.rows.filter
        (fun r => r.username == user.username || r.email == user.email)).head? with
    | some r => r.id
    | none => 0
  if existingID != 0 then (Except.error DBError.duplicate, db)
  else
    let hashed := hash user.password
    let newRow : User :=
      { id := db.nextId, username := user.username, email := user.email,
        password := hashed, profilePictureURL := user.profilePictureURL,
        bio := user.bio, createdAt := now, updatedAt := now, deletedAt := none }
    let returned : User :=
      { user with password := hashed, id := db.nextId, createdAt := now, updatedAt := now }
    (Except.ok returned, { rows := db.rows ++ [newRow], nextId := db.nextId + 1 })

/-- Per-row effect of the update statement
`UPDATE users SET username, email, profile_picture_url, bio WHERE id = ?`:
only those four columns change, plus `updated_at`, whose refresh on update
is the store-side behaviour the spec attributes to the store
("last-modified timestamp ... refreshed on every successful update"). -/
def updFn (now : Nat) (id : Nat) (user : User) (r : User) : User :=
  if r.id == id then
    { r with username := user.username, email := user.email,
             profilePictureURL := user.profilePictureURL, bio := user.bio,
             updatedAt := now }
  else r

/-- Per-row effect of the delete statement
`UPDATE users SET deleted_at = ? WHERE id = ?`. -/
def delFn (now : Nat) (id : Nat) (r : User) : User :=
  if r.id == id then { r with deletedAt := some now } else r

/-- `updateUser` (main.go lines 212-246): pre-check
`SELECT id FROM users WHERE (username = $1 OR email = $2) AND id != $3`
(no deleted_at filter), then the update statement with
`WHERE id = ? RETURNING updated_at` — the WHERE filters by id only, so
soft-deleted rows are matched too; zero matched rows makes
`QueryRow(...).Scan` return `sql.ErrNoRows`. The cache is not touched. -/
def updateUser (db : DB) (now : Nat) (id : Nat) (user : User) :
    Except DBError User × DB :=
  let existingID : Nat :=
    match (db.rows.filter
        (fun r => (r.username == user.username || r.email == user.email)
          && r.id != id)).head? with
    | some r => r.id
    | none => 0
  if existingID != 0 then (Except.error DBError.duplicate, db)
  else
    let matched := db.rows.filter (fun r => r.id == id)
    let db2 : DB := { db with rows := db.rows.map (updFn now id user) }
    match matched.head? with
    | none => (Except.error DBError.noRows, db2)
    | some _ => (Except.ok { user with updatedAt := now }, db2)

/-- `deleteUser` (main.go lines 248-279):
`UPDATE users SET deleted_at = now() WHERE id = ?` — filters by id only, so
already-soft-deleted rows are matched (and re-stamped) too; zero rows
affected yields `errors.New("user not found")`. The cache is not touched. -/
def deleteUser (db : DB) (now : Nat) (id : Nat) : Except DBError Unit × DB :=
  let rowsAffected := (db.rows.filter (fun r => r.id == id)).length
  let db2 : DB := { db with rows := db.rows.map (delFn now id) }
  if rowsAffected == 0 then (Except.error DBError.notFound, db2)
  else (Except.ok (), db2)

/-! Concrete fixtures used by counterexamples and witnesses. -/

/-- A row with the given id, username, email, password and deletion stamp. -/
def mkUser (i : Nat) (un em pw : String) (da : Option Nat) : User :=
  { id := i, username := un, email := em, password := pw,
    profilePictureURL := "", bio := "", createdAt := 0, updatedAt := 0, deletedAt := da }

/-- A sample one-way credential transform standing in for bcrypt. -/
def hashA (s : String) : String := "h:" ++ s

/-- Store holding a single soft-deleted row (id 1, username alice). -/
def dbS : DB := { rows := [mkUser 1 "alice" "a@x" "pw" (some 5)], nextId := 2 }

/-- Store holding a single active row (id 1, username alice). -/
def dbA : DB := { rows := [mkUser 1 "alice" "a@x" "pw" none], nextId := 2 }

/-- The value of row 1 as a read path returns it (seven columns). -/
def oldU : User := mkUser 1 "alice" "a@x" "" none

/-- A cache holding row 1's pre-update value until instant 1000. -/
def cA : Cache := [{ key := 1, value := oldU, expiresAt := 1000 }]

/-- An update payload renaming nobody but changing the bio. -/
def inpNew : User := { mkUser 0 "alice" "a@x" "" none with bio := "new" }

/-- An update payload with a fresh username and email. -/
def inpU : User := mkUser 0 "alice2" "b@x" "" none

/-- A create candidate reusing the soft-deleted username alice. -/
def candU : User := mkUser 0 "alice" "new@x" "pw" none

/-- The empty store. -/
def dbE : DB := { rows := [], nextId := 1 }

/-- The soft-deleted row of `dbS` and `dbSA`. -/
def sdRow : User := mkUser 1 "alice" "a@x" "pw" (some 5)

/-- Store holding the soft-deleted row 1 (username alice) and an active
row 2 (username bob). -/
def dbSA : DB := { rows := [sdRow, mkUser 2 "bob" "b@x" "pw" none], nextId := 3 }

/-- An update payload for row 2 reusing the soft-deleted username alice. -/
def updAlice : User := mkUser 0 "alice" "b2@x" "" none

/-- The active row of `dbA`. -/
def actRow : User := mkUser 1 "alice" "a@x" "pw" none

/-- Store with active rows u1, u3, u4 and a soft-deleted row u2. -/
def dbL : DB :=
  { rows := [mkUser 1 "u1" "e1" "p" none, mkUser 2 "u2" "e2" "p" (some 3),
             mkUser 3 "u3" "e3" "p" none, mkUser 4 "u4" "e4" "p" none],
    nextId := 5 }

/-! Shared helper lemmas. -/

lemma filter_ne_nil_of_mem {α : Type} {l : List α} {p : α → Bool} {a : α}
    (ha : a ∈ l) (hp : p a = true) : l.filter p ≠ [] :=
  List.ne_nil_of_mem (List.mem_filter.mpr ⟨ha, hp⟩)

lemma filter_eq_nil_of {α : Type} {l : List α} {p : α → Bool}
    (h : ∀ a ∈ l, p a = false) : l.filter p = [] := by
  induction l with
  | nil => rfl
  | cons x xs ih =>
    have hx := h x (List.mem_cons_self x xs)
    simp [List.filter, hx, ih fun a ha => h a (List.mem_cons_of_mem x ha)]

lemma deleteUser_snd (db : DB) (now i : Nat) :
    (deleteUser db now i).snd = { db with rows := db.rows.map (delFn now i) } := by
  simp only [deleteUser]
  split <;> rfl

lemma deleteUser_fst_of_match (db : DB) (now i : Nat)
    (h : db.rows.filter (fun r => r.id == i) ≠ []) :
    (deleteUser db now i).fst = Except.ok () := by
  simp only [deleteUser]
  split
  · next hcond =>
    exact absurd (List.length_eq_zero.mp (beq_iff_eq.mp hcond)) h
  · rfl

lemma deleteUser_fst_of_no_match (db : DB) (now i : Nat)
    (h : db.rows.filter (fun r => r.id == i) = []) :
    (deleteUser db now i).fst = Except.error DBError.notFound := by
  simp only [deleteUser]
  split
  · rfl
  · next hcond =>
    exact absurd (by rw [h]; rfl) hcond

lemma head?_filter_some {α : Type} {l : List α} {p : α → Bool} {a : α}
    (h : (l.filter p).head? = some a) : a ∈ l ∧ p a = true := by
  cases hf : l.filter p with
  | nil => rw [hf] at h; cases h
  | cons x xs =>
    rw [hf] at h
    have hax : a = x := by simpa using h.symm
    subst hax
    have : a ∈ l.filter p := hf ▸ List.mem_cons_self a xs
    exact List.mem_filter.mp this

/-! Claim C2: cache invalidation on update. -/

/-- C2 counterexample: against a store whose row 1 is active and a cache
holding row 1's pre-update value, a successful update of row 1's bio
followed immediately by a getByID returns the stale cached value, whose
bio is the pre-update one — refuting the claim that the cached entry is
invalidated or refreshed before update returns. -/
theorem C2_counterexample :
    (updateUser dbA 10 1 inpNew).fst = Except.ok { inpNew with updatedAt := 10 } ∧
    (getUserByID (updateUser dbA 10 1 inpNew).snd cA 11 1).fst = Except.ok oldU ∧
    oldU.bio ≠ inpNew.bio := by
  refine ⟨rfl, rfl, ?_⟩
  decide

/-- C2 (amended): `updateUser` never touches the cache, so a getByID issued
immediately after an update returns any live cached entry for the
identifier — the stale pre-update value — rather than the updated value. -/
theorem C2_update_leaves_stale_cache (db : DB) (c : Cache) (tU tG i : Nat)
    (u v : User) (hc : cacheGet c i tG = some v) :
    (getUserByID (updateUser db tU i u).snd c tG i).fst = Except.ok v := by
  simp only [getUserByID, hc]

/-- C2 witness: the amended theorem applied to the concrete stale-cache
scenario of the counterexample. -/
theorem C2_witness :
    cacheGet cA 1 11 = some oldU ∧
    (getUserByID (updateUser dbA 10 1 inpNew).snd cA 11 1).fst = Except.ok oldU :=
  ⟨by decide, C2_update_leaves_stale_cache dbA cA 10 11 1 inpNew oldU (by decide)⟩

/-! Claim C5: cache invalidation on delete. -/

/-- C5 counterexample: deleting row 1 succeeds, yet the cache entry for
identifier 1 is still live afterwards and getByID serves it — refuting the
claim that a successful delete removes any cached entry for the
identifier. -/
theorem C5_counterexample :
    (deleteUser dbA 10 1).fst = Except.ok () ∧
    cacheGet cA 1 11 = some oldU ∧
    (getUserByID (deleteUser dbA 10 1).snd cA 11 1).fst = Except.ok oldU := by
  refine ⟨rfl, ?_, rfl⟩
  decide

/-- C5 (amended): `deleteUser` never touches the cache, so after a
successful delete any live cached entry for the identifier remains and a
getByID still serves the stale (now soft-deleted) value from it until the
entry's TTL expires. -/
theorem C5_delete_leaves_cache (db : DB) (c : Cache) (tD tG i : Nat) (v : User)
    (_hok : (deleteUser db tD i).fst = Except.ok ())
    (hc : cacheGet c i tG = some v) :
    (getUserByID (deleteUser db tD i).snd c tG i).fst = Except.ok v := by
  simp only [getUserByID, hc]

/-- C5 witness: the amended theorem applied to the concrete scenario of the
counterexample. -/
theorem C5_witness :
    (getUserByID (deleteUser dbA 10 1).snd cA 11 1).fst = Except.ok oldU :=
  C5_delete_leaves_cache dbA cA 10 11 1 oldU rfl (by decide)

/-! Claim C3: scope of the duplicate-identity pre-checks. -/

/-- C3 counterexample: in `dbSA`, the only record with username alice is
soft-deleted, yet creating a candidate with that username fails with the
duplicate error, and updating row 2 to that username fails the same way —
refuting the claim that the pre-checks consider only active records and
let a candidate matching only soft-deleted records proceed. -/
theorem C3_counterexample :
    sdRow.deletedAt ≠ none ∧
    createUser hashA dbSA 10 candU = (Except.error DBError.duplicate, dbSA) ∧
    updateUser dbSA 10 2 updAlice = (Except.error DBError.duplicate, dbSA) := by
  refine ⟨?_, rfl, rfl⟩
  decide

/-- C3 (amended): the duplicate pre-checks of create and update run with no
deleted_at filter, so they consider all records, soft-deleted ones
included: whenever the pre-check query's first match is a record with a
nonzero identifier (for update, one whose identifier differs from the
target), the operation fails with duplicate-identity and leaves the store
unchanged — a soft-deleted record's former username/email is not
reusable. -/
theorem C3_precheck_sees_all_records (hash : String → String) (db : DB)
    (now i : Nat) (c u r0 r1 : User)
    (hcre : (db.rows.filter
      (fun r => r.username == c.username || r.email == c.email)).head? = some r0)
    (h0 : r0.id ≠ 0)
    (hupd : (db.rows.filter
      (fun r => (r.username == u.username || r.email == u.email)
        && r.id != i)).head? = some r1)
    (h1 : r1.id ≠ 0) :
    createUser hash db now c = (Except.error DBError.duplicate, db) ∧
    updateUser db now i u = (Except.error DBError.duplicate, db) := by
  constructor
  · simp only [createUser, hcre]
    simp [h0]
  · simp only [updateUser, hupd]
    simp [h1]

/-- C3 witness: the amended theorem applied to `dbSA`, whose alice record is
soft-deleted. -/
theorem C3_witness :
    createUser hashA dbSA 10 candU = (Except.error DBError.duplicate, dbSA) ∧
    updateUser dbSA 10 2 updAlice = (Except.error DBError.duplicate, dbSA) :=
  C3_precheck_sees_all_records hashA dbSA 10 2 candU updAlice sdRow sdRow
    (by decide) (by decide) (by decide) (by decide)

/-! Claim C8: create is atomic on duplicate failure. -/

/-- C8: when the create pre-check finds a conflicting record (its first
match has a nonzero identifier), `createUser` returns the
duplicate-identity error before any insert, and the store — rows and next
identifier alike — is unchanged. -/
theorem C8_create_atomic_on_duplicate (hash : String → String) (db : DB)
    (now : Nat) (c r0 : User)
    (hcre : (db.rows.filter
      (fun r => r.username == c.username || r.email == c.email)).head? = some r0)
    (h0 : r0.id ≠ 0) :
    (createUser hash db now c).fst = Except.error DBError.duplicate ∧
    (createUser hash db now c).snd = db := by
  simp only [createUser, hcre]
  simp [h0]

/-- C8 witness: a create candidate colliding with the active alice row. -/
theorem C8_witness :
    (createUser hashA dbA 10 candU).fst = Except.error DBError.duplicate ∧
    (createUser hashA dbA 10 candU).snd = dbA :=
  C8_create_atomic_on_duplicate hashA dbA 10 candU (mkUser 1 "alice" "a@x" "pw" none)
    (by decide) (by decide)

/-! Claim C7: successful create. -/

/-- C7 counterexample: `dbS` holds no active record at all, so the
candidate has no active username/email match, yet create fails with the
duplicate error because the pre-check also sees the soft-deleted alice
row; moreover on a store where create does succeed (the empty store), the
returned entity's credential field is the hash of the input credential,
not cleared — refuting both the claimed precondition and the claimed
cleared field. -/
theorem C7_counterexample :
    (∀ r ∈ dbS.rows, r.deletedAt ≠ none) ∧
    (createUser hashA dbS 10 candU).fst = Except.error DBError.duplicate ∧
    (createUser hashA dbE 10 candU).fst =
      Except.ok { candU with password := "h:pw", id := 1, createdAt := 10, updatedAt := 10 } ∧
    "h:pw" ≠ "" := by
  refine ⟨?_, rfl, rfl, ?_⟩ <;> decide

/-- C7 (amended): for every create input whose username and email match no
existing record at all (active or soft-deleted), create succeeds, inserts
a row whose credential is the one-way hash of the input credential, and
returns the entity with store-assigned identifier and timestamps and with
its credential field holding that hash (not cleared). -/
theorem C7_create_success (hash : String → String) (db : DB) (now : Nat)
    (c : User) (hno : ∀ r ∈ db.rows, r.username ≠ c.username ∧ r.email ≠ c.email) :
    (createUser hash db now c).fst =
      Except.ok { c with password := hash c.password, id := db.nextId,
                         createdAt := now, updatedAt := now } ∧
    (createUser hash db now c).snd.rows =
      db.rows ++ [{ id := db.nextId, username := c.username, email := c.email,
                    password := hash c.password,
                    profilePictureURL := c.profilePictureURL, bio := c.bio,
                    createdAt := now, updatedAt := now, deletedAt := none }] := by
  have hf : db.rows.filter
      (fun r => r.username == c.username || r.email == c.email) = [] :=
    filter_eq_nil_of fun a ha => by
      have h := hno a ha
      simp [h.1, h.2]
  simp [createUser, hf]

/-- C7 witness: the amended theorem applied to the empty store. -/
theorem C7_witness :
    (createUser hashA dbE 10 candU).fst =
      Except.ok { candU with password := hashA candU.password, id := dbE.nextId,
                             createdAt := 10, updatedAt := 10 } ∧
    (createUser hashA dbE 10 candU).snd.rows =
      dbE.rows ++ [{ id := dbE.nextId, username := candU.username,
                     email := candU.email, password := hashA candU.password,
                     profilePictureURL := candU.profilePictureURL,
                     bio := candU.bio, createdAt := 10, updatedAt := 10,
                     deletedAt := none }] :=
  C7_create_success hashA dbE 10 candU (by decide)

/-! Claim C1: behaviour of the three point operations on soft-deleted
records. -/

/-- C1 counterexample: every row of `dbS` is soft-deleted, yet both update
and delete on identifier 1 succeed — their WHERE clauses filter by id
only — refuting the claim that all three of getByID, update and delete
return not-found for a soft-deleted identifier. -/
theorem C1_counterexample :
    (∀ r ∈ dbS.rows, r.deletedAt ≠ none) ∧
    (updateUser dbS 10 1 inpU).fst = Except.ok { inpU with updatedAt := 10 } ∧
    (deleteUser dbS 10 1).fst = Except.ok () := by
  refine ⟨?_, rfl, rfl⟩
  decide

/-- C1 (amended): for an identifier all of whose rows are soft-deleted,
getByID returns not-found provided no live cache entry shadows the store
(its store query filters out deleted rows), but update (absent a
conflicting other record) and delete both succeed, because their WHERE
clauses filter by identifier only and so match soft-deleted rows. -/
theorem C1_soft_deleted_ops (db : DB) (c : Cache) (tG tU tD i : Nat) (u : User)
    (hex : ∃ r ∈ db.rows, r.id = i)
    (hdel : ∀ r ∈ db.rows, r.id = i → r.deletedAt ≠ none)
    (hc : cacheGet c i tG = none)
    (hnoconf : ∀ r ∈ db.rows, (r.username = u.username ∨ r.email = u.email) → r.id = i) :
    (getUserByID db c tG i).fst = Except.error DBError.noRows ∧
    (updateUser db tU i u).fst = Except.ok { u with updatedAt := tU } ∧
    (deleteUser db tD i).fst = Except.ok () := by
  obtain ⟨rr, hrr, hrid⟩ := hex
  have hmatched : db.rows.filter (fun r => r.id == i) ≠ [] :=
    filter_ne_nil_of_mem hrr (by simp [hrid])
  refine ⟨?_, ?_, ?_⟩
  · have hf1 : db.rows.filter (fun r => r.id == i && r.deletedAt == none) = [] :=
      filter_eq_nil_of fun a ha => by
        by_cases hid : a.id = i
        · have hd := hdel a ha hid
          cases hda : a.deletedAt with
          | none => exact absurd hda hd
          | some t => simp [hid, hda]
        · simp [hid]
    simp [getUserByID, hc, hf1]
  · have hf2 : db.rows.filter
        (fun r => (r.username == u.username || r.email == u.email) && r.id != i) = [] :=
      filter_eq_nil_of fun a ha => by
        by_cases hm : a.username = u.username ∨ a.email = u.email
        · have hid := hnoconf a ha hm
          simp [hid]
        · push_neg at hm
          simp [beq_iff_eq, hm.1, hm.2]
    obtain ⟨x, xs, hxx⟩ : ∃ x xs, db.rows.filter (fun r => r.id == i) = x :: xs := by
      cases hmf : db.rows.filter (fun r => r.id == i) with
      | nil => exact absurd hmf hmatched
      | cons x xs => exact ⟨x, xs, rfl⟩
    simp [updateUser, hf2, hxx]
  · exact deleteUser_fst_of_match db tD i hmatched

/-- C1 witness: the amended theorem on the store whose only row (id 1) is
soft-deleted, with an empty cache and a non-conflicting update payload. -/
theorem C1_witness :
    (getUserByID dbS [] 9 1).fst = Except.error DBError.noRows ∧
    (updateUser dbS 10 1 inpU).fst = Except.ok { inpU with updatedAt := 10 } ∧
    (deleteUser dbS 11 1).fst = Except.ok () :=
  C1_soft_deleted_ops dbS [] 9 10 11 1 inpU
    (by decide) (by decide) (by decide) (by decide)

/-! Claim C4: repeated delete. -/

/-- C4 counterexample: deleting the active row 1 of `dbA` succeeds, and a
second delete of the same identifier succeeds again (the delete statement
matches the soft-deleted row and re-stamps it) — refuting the claim that
the second delete returns not-found. -/
theorem C4_counterexample :
    (deleteUser dbA 10 1).fst = Except.ok () ∧
    (deleteUser (deleteUser dbA 10 1).snd 20 1).fst = Except.ok () := by
  exact ⟨rfl, rfl⟩

/-- C4 (amended): delete succeeds whenever some row carries the identifier,
regardless of its soft-deletion state: the first delete of an existing
record succeeds and a second delete of the same identifier succeeds again,
re-stamping the deletion timestamp; not-found arises exactly when no row
at all carries the identifier. -/
theorem C4_delete_repeat (db : DB) (t1 t2 : Nat) (i : Nat)
    (hex : ∃ r ∈ db.rows, r.id = i) :
    (deleteUser db t1 i).fst = Except.ok () ∧
    (deleteUser (deleteUser db t1 i).snd t2 i).fst = Except.ok () ∧
    ∀ db2 : DB, (∀ r ∈ db2.rows, r.id ≠ i) →
      (deleteUser db2 t1 i).fst = Except.error DBError.notFound := by
  obtain ⟨rr, hrr, hrid⟩ := hex
  refine ⟨deleteUser_fst_of_match db t1 i
    (filter_ne_nil_of_mem hrr (by simp [hrid])), ?_, ?_⟩
  · have hmem2 : delFn t1 i rr ∈ (deleteUser db t1 i).snd.rows := by
      rw [deleteUser_snd]
      exact List.mem_map_of_mem (delFn t1 i) hrr
    have hid2 : (delFn t1 i rr).id = i := by
      simp [delFn, hrid]
    exact deleteUser_fst_of_match _ t2 i
      (filter_ne_nil_of_mem hmem2 (by simp [hid2]))
  · intro db2 hnone
    exact deleteUser_fst_of_no_match db2 t1 i
      (filter_eq_nil_of fun a ha => by simp [hnone a ha])

/-- C4 witness: the amended theorem on the store with one active row. -/
theorem C4_witness :
    (deleteUser dbA 10 1).fst = Except.ok () ∧
    (deleteUser (deleteUser dbA 10 1).snd 20 1).fst = Except.ok () ∧
    ∀ db2 : DB, (∀ r ∈ db2.rows, r.id ≠ 1) →
      (deleteUser db2 10 1).fst = Except.error DBError.notFound :=
  C4_delete_repeat dbA 10 20 1 (by decide)

/-! Claim C9: frame of update. -/

lemma updateUser_snd_cases (db : DB) (now i : Nat) (u : User) :
    (updateUser db now i u).snd = db ∨
    (updateUser db now i u).snd = { db with rows := db.rows.map (updFn now i u) } := by
  simp only [updateUser]
  split
  · exact Or.inl rfl
  · split <;> exact Or.inr rfl

/-- C9: update modifies only the username, email, profile-picture, bio and
last-modified fields of rows: every update call preserves, row by row, the
identifier, creation timestamp, stored credential and deletion timestamp —
in particular a soft-deleted row's deletion timestamp is untouched, so the
row is never reactivated. -/
theorem C9_update_frame (db : DB) (now i : Nat) (u : User) :
    (updateUser db now i u).snd.rows.length = db.rows.length ∧
    ∀ j : Nat,
      ((updateUser db now i u).snd.rows.get? j).map User.id
        = (db.rows.get? j).map User.id ∧
      ((updateUser db now i u).snd.rows.get? j).map User.createdAt
        = (db.rows.get? j).map User.createdAt ∧
      ((updateUser db now i u).snd.rows.get? j).map User.password
        = (db.rows.get? j).map User.password ∧
      ((updateUser db now i u).snd.rows.get? j).map User.deletedAt
        = (db.rows.get? j).map User.deletedAt := by
  rcases updateUser_snd_cases db now i u with h | h <;> rw [h]
  · exact ⟨rfl, fun j => ⟨rfl, rfl, rfl, rfl⟩⟩
  · refine ⟨by simp, fun j => ?_⟩
    show ((db.rows.map (updFn now i u)).get? j).map User.id = _ ∧ _
    rw [List.get?_map]
    cases hx : db.rows.get? j with
    | none => exact ⟨rfl, rfl, rfl, rfl⟩
    | some x =>
      simp only [Option.map_some']
      unfold updFn
      split <;> exact ⟨rfl, rfl, rfl, rfl⟩

/-! Claim C10: cache write discipline of getByID. -/

/-- C10: the cache is written by getByID only after a successful store read
of a non-deleted row, under the identifier key with the default TTL; on a
cache hit and on the not-found path the cache is returned unchanged, and
the value written comes from a row of the store that is not soft-deleted. -/
theorem C10_cache_write_discipline (db : DB) (c : Cache) (now i : Nat) :
    (∀ v, cacheGet c i now = some v → getUserByID db c now i = (Except.ok v, c)) ∧
    (cacheGet c i now = none →
      ((db.rows.filter (fun r => r.id == i && r.deletedAt == none)).head? = none →
        getUserByID db c now i = (Except.error DBError.noRows, c)) ∧
      ∀ r, (db.rows.filter (fun r => r.id == i && r.deletedAt == none)).head? = some r →
        r ∈ db.rows ∧ r.deletedAt = none ∧
        getUserByID db c now i =
          (Except.ok (selectedColumns r),
            { key := i, value := selectedColumns r, expiresAt := now + defaultTTL }
              :: c.filter (fun e => e.key != i))) := by
  refine ⟨fun v hv => ?_, fun hn => ⟨fun hh => ?_, fun r hr => ?_⟩⟩
  · simp [getUserByID, hv]
  · simp [getUserByID, hn, hh]
  · obtain ⟨hmem, hp⟩ := head?_filter_some hr
    have hdel : r.deletedAt = none := by
      have h2 := (Bool.and_eq_true _ _).mp hp
      simpa using h2.2
    refine ⟨hmem, hdel, ?_⟩
    simp [getUserByID, hn, hr, cacheSet]

/-- C10 witness: a miss on the empty cache against the store with one
active row populates the cache with that row's seven-column view under key
1 and the default TTL. -/
theorem C10_witness :
    getUserByID dbA [] 10 1 =
      (Except.ok (selectedColumns actRow),
        { key := 1, value := selectedColumns actRow, expiresAt := 10 + defaultTTL }
          :: ([] : Cache).filter (fun e => e.key != 1)) :=
  (((C10_cache_write_discipline dbA [] 10 1).2 (by decide)).2 actRow (by decide)).2.2

/-! Claim C6: pagination and its fallbacks. -/

lemma int64wrap_id {x : Int} (h1 : -(2 ^ 63) ≤ x) (h2 : x < 2 ^ 63) :
    int64wrap x = x := by
  have h64 : (2 : Int) ^ 64 = 18446744073709551616 := by norm_num
  have h63 : (2 : Int) ^ 63 = 9223372036854775808 := by norm_num
  unfold int64wrap
  rw [h64, h63]
  rw [h63] at h1 h2
  omega

lemma goUint64_id {x : Int} (h1 : 0 ≤ x) (h2 : x < 2 ^ 64) :
    goUint64 x = x.toNat := by
  have h64 : (2 : Int) ^ 64 = 18446744073709551616 := by norm_num
  unfold goUint64
  rw [h64]
  rw [h64] at h2
  omega

/-- C6: the list endpoint falls back to page 1 when the page parameter is
absent/invalid or below 1 and to pageSize 10 when the pageSize parameter is
absent/invalid or below 1; with the resulting page and pageSize (both at
least 1, and small enough that the Go int arithmetic does not overflow) it
returns exactly the slice of the active records at offset
(page−1)×pageSize of length at most pageSize, with the seven selected
columns. -/
theorem C6_pagination (db : DB) (pp ps : Option Int)
    (hpp : ∀ v, pp = some v → v < 2 ^ 63)
    (hps : ∀ v, ps = some v → v < 2 ^ 63)
    (hprod : (pageOf pp - 1) * pageSizeOf ps < 2 ^ 63) :
    (pp = none → pageOf pp = 1) ∧
    (∀ v, pp = some v → v < 1 → pageOf pp = 1) ∧
    (ps = none → pageSizeOf ps = 10) ∧
    (∀ v, ps = some v → v < 1 → pageSizeOf ps = 10) ∧
    1 ≤ pageOf pp ∧ 1 ≤ pageSizeOf ps ∧
    getUsersHandler db pp ps =
      (((activeRows db).drop (((pageOf pp - 1) * pageSizeOf ps).toNat)).take
        ((pageSizeOf ps).toNat)).map selectedColumns := by
  have h63 : (2 : Int) ^ 63 = 9223372036854775808 := by norm_num
  have hpage1 : 1 ≤ pageOf pp := by
    unfold pageOf
    cases pp with
    | none => norm_num
    | some v => dsimp only; split <;> omega
  have hpageU : pageOf pp < 2 ^ 63 := by
    unfold pageOf
    cases pp with
    | none => rw [h63]; norm_num
    | some v =>
      have hv := hpp v rfl
      dsimp only
      split
      · rw [h63]; norm_num
      · exact hv
  have hsize1 : 1 ≤ pageSizeOf ps := by
    unfold pageSizeOf
    cases ps with
    | none => norm_num
    | some v => dsimp only; split <;> omega
  have hsizeU : pageSizeOf ps < 2 ^ 63 := by
    unfold pageSizeOf
    cases ps with
    | none => rw [h63]; norm_num
    | some v =>
      have hv := hps v rfl
      dsimp only
      split
      · rw [h63]; norm_num
      · exact hv
  have hoffnn : 0 ≤ (pageOf pp - 1) * pageSizeOf ps :=
    mul_nonneg (by omega) (by omega)
  have hw1 : int64wrap (pageOf pp - 1) = pageOf pp - 1 :=
    int64wrap_id (by rw [h63] at hpageU ⊢; omega) (by rw [h63] at hpageU ⊢; omega)
  have hw2 : int64wrap ((pageOf pp - 1) * pageSizeOf ps) = (pageOf pp - 1) * pageSizeOf ps :=
    int64wrap_id (by rw [h63] at hprod ⊢; omega) hprod
  have hg1 : goUint64 ((pageOf pp - 1) * pageSizeOf ps)
      = ((pageOf pp - 1) * pageSizeOf ps).toNat :=
    goUint64_id hoffnn (by
      have : (2 : Int) ^ 63 < 2 ^ 64 := by norm_num
      omega)
  have hg2 : goUint64 (pageSizeOf ps) = (pageSizeOf ps).toNat :=
    goUint64_id (by omega) (by
      have : (2 : Int) ^ 63 < 2 ^ 64 := by norm_num
      omega)
  refine ⟨fun h => by rw [h]; rfl,
          fun v hv hlt => by rw [hv]; unfold pageOf; simp [hlt],
          fun h => by rw [h]; rfl,
          fun v hv hlt => by rw [hv]; unfold pageSizeOf; simp [hlt],
          hpage1, hsize1, ?_⟩
  unfold getUsersHandler getUsers
  rw [hw1, hw2]
  simp only [hg1, hg2]

/-- C6 witness: page 2 of size 1 over a store with three active and one
soft-deleted record. -/
theorem C6_witness :
    getUsersHandler dbL (some 2) (some 1) =
      (((activeRows dbL).drop
          (((pageOf (some 2) - 1) * pageSizeOf (some 1)).toNat)).take
        ((pageSizeOf (some 1)).toNat)).map selectedColumns :=
  (C6_pagination dbL (some 2) (some 1)
    (by intro v hv; cases hv; norm_num)
    (by intro v hv; cases hv; norm_num)
    (by norm_num [pageOf, pageSizeOf])).2.2.2.2.2.2

end GoSite
